import Mathlib

/-!
Shallow embedding of `src/main.js` of the prism-demo repository.

The script is a single module that builds a three.js scene and then mutates
module-level state from a handful of event handlers (lil-gui `onChange`
callbacks, mouse handlers, and the `animate` frame tick).  We embed that
mutable state as the record `AppState`, each handler as a case of the total
step function `step : Event → AppState → AppState`, and the module
initialisation as `initState`.

Numeric conventions: JavaScript numbers are embedded as exact rationals
(`ℚ`); floating-point rounding is not modelled.  `Math.PI` is embedded as
the exact rational value of the IEEE-754 double that `Math.PI` denotes.
The material is held in an arena (`materials : List Material`) and each
mesh stores the index of its material, so "same instance" sharing is
expressible.  The lil-gui control panel is external to the repository; it
is modelled at its interface boundary: each settings-bound controller has a
displayed value (`displayed : Settings`), a user edit through a widget
writes the bound field and that widget's display before invoking the
registered `onChange` callback, and `Controller.updateDisplay` re-reads the
bound field into the display.  (The Glass Properties controllers are bound
to the material object directly and their displays are not modelled; no
claim mentions them.)
-/

/-- Exact rational value of the IEEE-754 double denoted by `Math.PI`. -/
def mathPi : ℚ := 884279719003555 / 281474976710656

/-- `const singlePyramidRadius = 1.2` (main.js line 67). -/
def singlePyramidRadius : ℚ := 12 / 10

/-- `const singlePyramidHeight = 2.0` (main.js line 68). -/
def singlePyramidHeight : ℚ := 2

/-- `const biPyramidRadius = 1.2` (main.js line 82). -/
def biPyramidRadius : ℚ := 12 / 10

/-- `const biPyramidHeight = 1.5 * 1.3` (main.js line 83). -/
def biPyramidHeight : ℚ := 15 / 10 * (13 / 10)

/-- The tunable fields of `THREE.MeshPhysicalMaterial` that main.js sets on
`glassMaterial` (main.js lines 40-51). -/
structure Material where
  transmission : ℚ
  roughness : ℚ
  thickness : ℚ
  ior : ℚ
  dispersion : ℚ
  metalness : ℚ
  clearcoat : ℚ
  clearcoatRoughness : ℚ
  envMapIntensity : ℚ
  doubleSided : Bool
deriving DecidableEq

/-- `const glassMaterial = new THREE.MeshPhysicalMaterial({...})`
(main.js lines 40-51). -/
def glassMaterial : Material :=
  { transmission := 1
    roughness := 0
    thickness := 5
    ior := 2
    dispersion := 5
    metalness := 0
    clearcoat := 1
    clearcoatRoughness := 0
    envMapIntensity := 1
    doubleSided := true }

/-- The `settings` record (main.js lines 217-243). -/
structure Settings where
  shape : String
  prismRotateX : ℚ
  prismRotateY : ℚ
  prismRotateZ : ℚ
  autoRotate : Bool
  autoRotateSpeed : ℚ
  biPyramidGap : ℚ
  showInputBeam : Bool
  inputBeamOpacity : ℚ
  lightIntensity : ℚ
  fogDensity : ℚ
  particlesVisible : Bool
deriving DecidableEq

/-- The module-level mutable state of main.js: the prism group transform,
the two shape groups' visibility flags, the bi-pyramid mesh offsets, the
material arena with each solid mesh's material index, beam / light /
atmosphere state, the `settings` record, the modelled GUI display, and the
drag-tracking variables (`isDragging`, `previousMousePosition`). -/
structure AppState where
  prismRotationX : ℚ
  prismRotationY : ℚ
  prismRotationZ : ℚ
  singlePyramidVisible : Bool
  biPyramidVisible : Bool
  upperPyramidPositionY : ℚ
  lowerPyramidPositionY : ℚ
  biPyramidGap : ℚ
  materials : List Material
  singlePyramidMaterial : Nat
  upperPyramidMaterial : Nat
  lowerPyramidMaterial : Nat
  inputBeamVisible : Bool
  inputBeamOpacity : ℚ
  spotLightIntensity : ℚ
  fogDensity : ℚ
  particlesVisible : Bool
  particlesRotationY : ℚ
  settings : Settings
  displayed : Settings
  isDragging : Bool
  prevMouseX : ℚ
  prevMouseY : ℚ
deriving DecidableEq

/-- `function updateBiPyramidGap(gap)` (main.js lines 110-114): stores the
gap and repositions both bi-pyramid halves. -/
def updateBiPyramidGap (gap : ℚ) (s : AppState) : AppState :=
  { s with
    biPyramidGap := gap
    upperPyramidPositionY := biPyramidHeight / 2 + gap / 2
    lowerPyramidPositionY := -(biPyramidHeight / 2 + gap / 2) }

/-- `function setActiveShape(shapeName)` (main.js lines 117-120). -/
def setActiveShape (shapeName : String) (s : AppState) : AppState :=
  { s with
    singlePyramidVisible := shapeName == "Single Pyramid"
    biPyramidVisible := shapeName == "Bi-Pyramid" }

/-- Replace the material at index `i` of the arena by `f` of it. -/
def modifyMaterial (f : Material → Material) : Nat → List Material → List Material
  | _, [] => []
  | 0, m :: rest => f m :: rest
  | n + 1, m :: rest => m :: modifyMaterial f n rest

/-- The material a mesh with material index `i` renders with. -/
def meshMaterial (s : AppState) (i : Nat) : Option Material :=
  s.materials[i]?

/-- `gui.controllersRecursive().forEach(c => c.updateDisplay())`
(main.js line 328): every settings-bound controller re-reads its bound
field into its display. -/
def updateDisplay (s : AppState) : AppState :=
  { s with displayed := s.settings }

/-- The events main.js reacts to: the four mouse handlers
(lines 312-339), the `animate` frame tick (lines 355-367), and one event
per GUI controller, carrying the value the user set through the widget
(lines 253-303). -/
inductive Event where
  | mousedown (x y : ℚ)
  | mousemove (x y : ℚ)
  | mouseup
  | mouseleave
  | tick
  | panelShape (v : String)
  | panelGap (v : ℚ)
  | panelRotateX (v : ℚ)
  | panelRotateY (v : ℚ)
  | panelRotateZ (v : ℚ)
  | panelAutoRotate (v : Bool)
  | panelAutoRotateSpeed (v : ℚ)
  | panelTransmission (v : ℚ)
  | panelIor (v : ℚ)
  | panelDispersion (v : ℚ)
  | panelThickness (v : ℚ)
  | panelRoughness (v : ℚ)
  | panelShowInputBeam (v : Bool)
  | panelInputBeamOpacity (v : ℚ)
  | panelLightIntensity (v : ℚ)
  | panelFogDensity (v : ℚ)
  | panelParticlesVisible (v : Bool)

/-- One dispatch of an event handler of main.js.  Each case is translated
from the corresponding handler; a GUI event first writes the widget's
bound field and display (lil-gui behaviour at the interface boundary) and
then runs the registered `onChange` body. -/
def step (e : Event) (s : AppState) : AppState :=
  match e with
  | .mousedown x y =>
      { s with isDragging := true, prevMouseX := x, prevMouseY := y }
  | .mousemove x y =>
      if s.isDragging then
        let deltaX := x - s.prevMouseX
        let deltaY := y - s.prevMouseY
        let ry := s.prismRotationY + deltaX * (5 / 1000)
        let rx := s.prismRotationX + deltaY * (5 / 1000)
        let s1 := { s with
          prismRotationY := ry
          prismRotationX := rx
          settings := { s.settings with prismRotateY := ry, prismRotateX := rx } }
        let s2 := updateDisplay s1
        { s2 with prevMouseX := x, prevMouseY := y }
      else s
  | .mouseup => { s with isDragging := false }
  | .mouseleave => { s with isDragging := false }
  | .tick =>
      let s1 :=
        if s.settings.autoRotate && !s.isDragging then
          let ry := s.prismRotationY + s.settings.autoRotateSpeed * (1 / 100)
          { s with
            prismRotationY := ry
            settings := { s.settings with prismRotateY := ry } }
        else s
      { s1 with particlesRotationY := s1.particlesRotationY + 1 / 10000 }
  | .panelShape v =>
      let s1 := { s with
        settings := { s.settings with shape := v }
        displayed := { s.displayed with shape := v } }
      setActiveShape v s1
  | .panelGap v =>
      let s1 := { s with
        settings := { s.settings with biPyramidGap := v }
        displayed := { s.displayed with biPyramidGap := v } }
      updateBiPyramidGap v s1
  | .panelRotateX v =>
      { s with
        settings := { s.settings with prismRotateX := v }
        displayed := { s.displayed with prismRotateX := v }
        prismRotationX := v }
  | .panelRotateY v =>
      { s with
        settings := { s.settings with prismRotateY := v }
        displayed := { s.displayed with prismRotateY := v }
        prismRotationY := v }
  | .panelRotateZ v =>
      { s with
        settings := { s.settings with prismRotateZ := v }
        displayed := { s.displayed with prismRotateZ := v }
        prismRotationZ := v }
  | .panelAutoRotate v =>
      { s with
        settings := { s.settings with autoRotate := v }
        displayed := { s.displayed with autoRotate := v } }
  | .panelAutoRotateSpeed v =>
      { s with
        settings := { s.settings with autoRotateSpeed := v }
        displayed := { s.displayed with autoRotateSpeed := v } }
  | .panelTransmission v =>
      { s with materials :=
          modifyMaterial (fun m => { m with transmission := v }) 0 s.materials }
  | .panelIor v =>
      { s with materials :=
          modifyMaterial (fun m => { m with ior := v }) 0 s.materials }
  | .panelDispersion v =>
      { s with materials :=
          modifyMaterial (fun m => { m with dispersion := v }) 0 s.materials }
  | .panelThickness v =>
      { s with materials :=
          modifyMaterial (fun m => { m with thickness := v }) 0 s.materials }
  | .panelRoughness v =>
      { s with materials :=
          modifyMaterial (fun m => { m with roughness := v }) 0 s.materials }
  | .panelShowInputBeam v =>
      { s with
        settings := { s.settings with showInputBeam := v }
        displayed := { s.displayed with showInputBeam := v }
        inputBeamVisible := v }
  | .panelInputBeamOpacity v =>
      { s with
        settings := { s.settings with inputBeamOpacity := v }
        displayed := { s.displayed with inputBeamOpacity := v }
        inputBeamOpacity := v }
  | .panelLightIntensity v =>
      { s with
        settings := { s.settings with lightIntensity := v }
        displayed := { s.displayed with lightIntensity := v }
        spotLightIntensity := v }
  | .panelFogDensity v =>
      { s with
        settings := { s.settings with fogDensity := v }
        displayed := { s.displayed with fogDensity := v }
        fogDensity := v }
  | .panelParticlesVisible v =>
      { s with
        settings := { s.settings with particlesVisible := v }
        displayed := { s.displayed with particlesVisible := v }
        particlesVisible := v }

/-- The `settings` record's initial value (main.js lines 217-243). -/
def initSettings : Settings :=
  { shape := "Bi-Pyramid"
    prismRotateX := mathPi / 6
    prismRotateY := mathPi / 4
    prismRotateZ := 0
    autoRotate := true
    autoRotateSpeed := 3 / 10
    biPyramidGap := 15 / 100
    showInputBeam := false
    inputBeamOpacity := 25 / 100
    lightIntensity := 200
    fogDensity := 2 / 100
    particlesVisible := true }

/-- The state after module initialisation: meshes built sharing
`glassMaterial` (arena slot 0), bi-pyramid visible, default rotation
(π/6, π/4, 0), drag state idle, GUI freshly built so each controller
displays its bound field. -/
def initState : AppState :=
  { prismRotationX := mathPi / 6
    prismRotationY := mathPi / 4
    prismRotationZ := 0
    singlePyramidVisible := false
    biPyramidVisible := true
    upperPyramidPositionY := biPyramidHeight / 2 + 15 / 100 / 2
    lowerPyramidPositionY := -(biPyramidHeight / 2 + 15 / 100 / 2)
    biPyramidGap := 15 / 100
    materials := [glassMaterial]
    singlePyramidMaterial := 0
    upperPyramidMaterial := 0
    lowerPyramidMaterial := 0
    inputBeamVisible := false
    inputBeamOpacity := 25 / 100
    spotLightIntensity := 200
    fogDensity := 2 / 100
    particlesVisible := true
    particlesRotationY := 0
    settings := initSettings
    displayed := initSettings
    isDragging := false
    prevMouseX := 0
    prevMouseY := 0 }

/-- Run a list of events from a given state, in order. -/
def runFrom (s : AppState) (es : List Event) : AppState :=
  es.foldl (fun t e => step e t) s

/-- Run a list of events from the initial state.  A state is reachable
iff it is `run es` for some event list `es`. -/
def run (es : List Event) : AppState :=
  runFrom initState es

/-! ## The settings / scene-graph orientation sync invariant -/

/-- The settings record's stored rotation angles agree with the prism
group's actual rotation components. -/
def Synced (s : AppState) : Prop :=
  s.settings.prismRotateX = s.prismRotationX ∧
  s.settings.prismRotateY = s.prismRotationY ∧
  s.settings.prismRotateZ = s.prismRotationZ

theorem step_synced (e : Event) (s : AppState) (h : Synced s) : Synced (step e s) := by
  obtain ⟨h1, h2, h3⟩ := h
  cases e <;>
    simp [step, Synced, updateDisplay, setActiveShape, updateBiPyramidGap, h1, h2, h3] <;>
    split <;>
    simp [h1, h2, h3]

theorem runFrom_synced (es : List Event) (s : AppState) (h : Synced s) :
    Synced (runFrom s es) := by
  induction es generalizing s with
  | nil => exact h
  | cons e es ih => exact ih (step e s) (step_synced e s h)

/-- C1: after any orientation mutation from any of the three writers
(panel control change, pointer-drag move, auto-rotate tick) — indeed after
any reachable event sequence — the settings record's stored rotation
angles (prismRotateX/Y/Z) equal the prism group's actual rotation
components. -/
theorem settings_rotation_always_synced (es : List Event) : Synced (run es) :=
  runFrom_synced es initState ⟨rfl, rfl, rfl⟩

/-! ## Display refresh on non-panel mutations -/

/-- C2 counterexample: one auto-rotate tick from the initial state writes
the new Y angle back into the settings record, yet the Rotate Y
controller's displayed value is left stale — the tick handler performs no
display refresh, refuting the claim that every non-panel mutation triggers
one. -/
theorem autorotate_tick_leaves_display_stale :
    (step .tick initState).settings.prismRotateY = (step .tick initState).prismRotationY ∧
    (step .tick initState).displayed.prismRotateY ≠ (step .tick initState).settings.prismRotateY := by
  refine ⟨rfl, ?_⟩
  simp [step, initState, initSettings, self_eq_add_right]

/-- C2 amended: a pointer-drag move writes the new angles back into the
settings record and refreshes every settings-bound control's display; an
auto-rotate tick writes the new Y angle back into the settings record but
performs no display refresh, leaving every control's displayed value
unchanged. -/
theorem drag_refreshes_display_tick_does_not :
    (∀ (s : AppState) (x y : ℚ), s.isDragging = true →
      (step (.mousemove x y) s).settings.prismRotateY = (step (.mousemove x y) s).prismRotationY ∧
      (step (.mousemove x y) s).settings.prismRotateX = (step (.mousemove x y) s).prismRotationX ∧
      (step (.mousemove x y) s).displayed = (step (.mousemove x y) s).settings) ∧
    (∀ s : AppState, s.settings.autoRotate = true → s.isDragging = false →
      (step .tick s).settings.prismRotateY = (step .tick s).prismRotationY ∧
      (step .tick s).displayed = s.displayed) := by
  constructor
  · intro s x y h
    simp [step, updateDisplay, h]
  · intro s ha hd
    simp [step, ha, hd]

/-- Witness for the amended C2 at concrete inputs. -/
theorem drag_refreshes_display_tick_does_not_witness :
    (step (.mousedown 100 100) initState).isDragging = true ∧
    (step (.mousemove 110 115) (step (.mousedown 100 100) initState)).displayed
      = (step (.mousemove 110 115) (step (.mousedown 100 100) initState)).settings ∧
    initState.settings.autoRotate = true ∧
    initState.isDragging = false ∧
    (step .tick initState).displayed = initState.displayed :=
  ⟨rfl,
   (drag_refreshes_display_tick_does_not.1 (step (.mousedown 100 100) initState) 110 115 rfl).2.2,
   rfl, rfl,
   (drag_refreshes_display_tick_does_not.2 initState rfl rfl).2⟩

/-! ## Shape switching and the bi-pyramid gap -/

/-- C3: for both enum inputs, after any `setActiveShape` call exactly one
of the two shape groups is visible (XOR), the call is idempotent, and the
resulting state differs from the input state only in the two visibility
flags. -/
theorem setActiveShape_enum_xor_idem_pure (s : AppState) (name : String)
    (h : name = "Single Pyramid" ∨ name = "Bi-Pyramid") :
    Bool.xor (setActiveShape name s).singlePyramidVisible
        (setActiveShape name s).biPyramidVisible = true ∧
    setActiveShape name (setActiveShape name s) = setActiveShape name s ∧
    setActiveShape name s = { s with
      singlePyramidVisible := name == "Single Pyramid"
      biPyramidVisible := name == "Bi-Pyramid" } := by
  refine ⟨?_, rfl, rfl⟩
  rcases h with h | h <;> subst h <;> rfl

/-- Witness for C3 at a concrete enum input. -/
theorem setActiveShape_enum_xor_idem_pure_witness :
    ("Single Pyramid" = "Single Pyramid" ∨ "Single Pyramid" = "Bi-Pyramid") ∧
    Bool.xor (setActiveShape "Single Pyramid" initState).singlePyramidVisible
        (setActiveShape "Single Pyramid" initState).biPyramidVisible = true :=
  ⟨Or.inl rfl,
   (setActiveShape_enum_xor_idem_pure initState "Single Pyramid" (Or.inl rfl)).1⟩

/-- C4: for every gap g in [0,1], `updateBiPyramidGap g` sets the upper
offset to height/2 + g/2 and the lower offset to -(height/2 + g/2), both
in the same update, so the offsets are symmetric about the origin. -/
theorem updateBiPyramidGap_symmetric_in_range (s : AppState) (g : ℚ)
    (h0 : 0 ≤ g) (h1 : g ≤ 1) :
    (updateBiPyramidGap g s).upperPyramidPositionY = biPyramidHeight / 2 + g / 2 ∧
    (updateBiPyramidGap g s).lowerPyramidPositionY = -(biPyramidHeight / 2 + g / 2) :=
  ⟨rfl, rfl⟩

/-- Witness for C4 at the boundary gaps g = 0 and g = 1. -/
theorem updateBiPyramidGap_symmetric_in_range_witness :
    ((0:ℚ) ≤ 0 ∧ (0:ℚ) ≤ 1 ∧ (0:ℚ) ≤ 1 ∧ (1:ℚ) ≤ 1) ∧
    (updateBiPyramidGap 0 initState).upperPyramidPositionY = biPyramidHeight / 2 + 0 / 2 ∧
    (updateBiPyramidGap 0 initState).lowerPyramidPositionY = -(biPyramidHeight / 2 + 0 / 2) ∧
    (updateBiPyramidGap 1 initState).upperPyramidPositionY = biPyramidHeight / 2 + 1 / 2 ∧
    (updateBiPyramidGap 1 initState).lowerPyramidPositionY = -(biPyramidHeight / 2 + 1 / 2) :=
  ⟨⟨le_refl 0, by norm_num, by norm_num, le_refl 1⟩,
   (updateBiPyramidGap_symmetric_in_range initState 0 (le_refl 0) (by norm_num)).1,
   (updateBiPyramidGap_symmetric_in_range initState 0 (le_refl 0) (by norm_num)).2,
   (updateBiPyramidGap_symmetric_in_range initState 1 (by norm_num) (le_refl 1)).1,
   (updateBiPyramidGap_symmetric_in_range initState 1 (by norm_num) (le_refl 1)).2⟩

/-- C9: for every input string other than the two enum values,
`setActiveShape` hides both shape groups, so the exactly-one-visible XOR
invariant fails outside the enum domain. -/
theorem setActiveShape_unknown_hides_both (s : AppState) (name : String)
    (h1 : name ≠ "Single Pyramid") (h2 : name ≠ "Bi-Pyramid") :
    (setActiveShape name s).singlePyramidVisible = false ∧
    (setActiveShape name s).biPyramidVisible = false ∧
    Bool.xor (setActiveShape name s).singlePyramidVisible
        (setActiveShape name s).biPyramidVisible = false := by
  have e1 : (name == "Single Pyramid") = false := beq_eq_false_iff_ne.mpr h1
  have e2 : (name == "Bi-Pyramid") = false := beq_eq_false_iff_ne.mpr h2
  simp [setActiveShape, e1, e2]

/-- Witness for C9 at a concrete non-enum input. -/
theorem setActiveShape_unknown_hides_both_witness :
    ("Cube" ≠ "Single Pyramid") ∧ ("Cube" ≠ "Bi-Pyramid") ∧
    (setActiveShape "Cube" initState).singlePyramidVisible = false ∧
    (setActiveShape "Cube" initState).biPyramidVisible = false :=
  ⟨by decide, by decide,
   (setActiveShape_unknown_hides_both initState "Cube" (by decide) (by decide)).1,
   (setActiveShape_unknown_hides_both initState "Cube" (by decide) (by decide)).2.1⟩

/-- C10: `updateBiPyramidGap` performs no clamping: for every rational gap
g, including g < 0 and g > 1, the lower offset is the negation of the
upper offset and both equal ±(height/2 + g/2). -/
theorem updateBiPyramidGap_unclamped_symmetric (s : AppState) (g : ℚ) :
    (updateBiPyramidGap g s).lowerPyramidPositionY
      = -((updateBiPyramidGap g s).upperPyramidPositionY) ∧
    (updateBiPyramidGap g s).upperPyramidPositionY = biPyramidHeight / 2 + g / 2 ∧
    (updateBiPyramidGap g s).lowerPyramidPositionY = -(biPyramidHeight / 2 + g / 2) :=
  ⟨rfl, rfl, rfl⟩

/-! ## Auto-rotate and drag arithmetic -/

theorem tick_step_fields (s : AppState) (ha : s.settings.autoRotate = true)
    (hd : s.isDragging = false) :
    (step .tick s).prismRotationY = s.prismRotationY + s.settings.autoRotateSpeed * (1 / 100) ∧
    (step .tick s).prismRotationX = s.prismRotationX ∧
    (step .tick s).prismRotationZ = s.prismRotationZ ∧
    (step .tick s).settings.autoRotate = true ∧
    (step .tick s).isDragging = false ∧
    (step .tick s).settings.autoRotateSpeed = s.settings.autoRotateSpeed := by
  simp [step, ha, hd]

theorem tick_iterate_fields (s : AppState) (n : ℕ) (ha : s.settings.autoRotate = true)
    (hd : s.isDragging = false) :
    ((step .tick)^[n] s).prismRotationY
      = s.prismRotationY + n * (s.settings.autoRotateSpeed * (1 / 100)) ∧
    ((step .tick)^[n] s).prismRotationX = s.prismRotationX ∧
    ((step .tick)^[n] s).prismRotationZ = s.prismRotationZ ∧
    ((step .tick)^[n] s).settings.autoRotate = true ∧
    ((step .tick)^[n] s).isDragging = false ∧
    ((step .tick)^[n] s).settings.autoRotateSpeed = s.settings.autoRotateSpeed := by
  induction n with
  | zero => exact ⟨by simp, rfl, rfl, ha, hd, rfl⟩
  | succ n ih =>
      obtain ⟨iy, ix, iz, iha, ihd, ispd⟩ := ih
      have h := tick_step_fields ((step .tick)^[n] s) iha ihd
      rw [Function.iterate_succ_apply']
      refine ⟨?_, ?_, ?_, h.2.2.2.1, h.2.2.2.2.1, ?_⟩
      · rw [h.1, iy, ispd]
        push_cast
        ring
      · rw [h.2.1, ix]
      · rw [h.2.2.1, iz]
      · rw [h.2.2.2.2.2, ispd]

/-- C5: with auto-rotate enabled at speed `autoRotateSpeed` and no drag in
progress, n animation ticks increase the prism group's Y rotation by
exactly n * speed * 0.01 while leaving X and Z untouched; while a drag is
in progress, a tick applies no rotation increment at all. -/
theorem autoRotate_tick_increment (s : AppState) (n : ℕ) :
    (s.settings.autoRotate = true → s.isDragging = false →
      ((step .tick)^[n] s).prismRotationY
        = s.prismRotationY + n * (s.settings.autoRotateSpeed * (1 / 100)) ∧
      ((step .tick)^[n] s).prismRotationX = s.prismRotationX ∧
      ((step .tick)^[n] s).prismRotationZ = s.prismRotationZ) ∧
    (s.isDragging = true →
      (step .tick s).prismRotationY = s.prismRotationY ∧
      (step .tick s).prismRotationX = s.prismRotationX ∧
      (step .tick s).prismRotationZ = s.prismRotationZ) := by
  constructor
  · intro ha hd
    have h := tick_iterate_fields s n ha hd
    exact ⟨h.1, h.2.1, h.2.2.1⟩
  · intro hd
    simp [step, hd]

/-- Witness for C5: two ticks from the initial state (auto-rotate on, not
dragging) advance Y by 2 * 0.3 * 0.01; one tick in a dragging state
leaves the rotation unchanged. -/
theorem autoRotate_tick_increment_witness :
    (initState.settings.autoRotate = true ∧ initState.isDragging = false ∧
      ((step .tick)^[2] initState).prismRotationY
        = initState.prismRotationY + (2 : ℕ) * (initState.settings.autoRotateSpeed * (1 / 100))) ∧
    ((step (.mousedown 0 0) initState).isDragging = true ∧
      (step .tick (step (.mousedown 0 0) initState)).prismRotationY
        = (step (.mousedown 0 0) initState).prismRotationY) :=
  ⟨⟨rfl, rfl, ((autoRotate_tick_increment initState 2).1 rfl rfl).1⟩,
   ⟨rfl, ((autoRotate_tick_increment (step (.mousedown 0 0) initState) 0).2 rfl).1⟩⟩

/-- C6: while dragging, each mousemove applies rotationY += Δx * 0.005 and
rotationX += Δy * 0.005, with (Δx, Δy) measured from the previous
move/down event. -/
theorem drag_move_sensitivity (s : AppState) (x y : ℚ) (h : s.isDragging = true) :
    (step (.mousemove x y) s).prismRotationY
      = s.prismRotationY + (x - s.prevMouseX) * (5 / 1000) ∧
    (step (.mousemove x y) s).prismRotationX
      = s.prismRotationX + (y - s.prevMouseY) * (5 / 1000) := by
  simp [step, updateDisplay, h]

/-- Witness for C6, the scenario named by the claim: pointer-down at
(100,100) then pointer-move to (110,115) increases rotationY by 0.05 and
rotationX by 0.075. -/
theorem drag_move_sensitivity_witness :
    (step (.mousedown 100 100) initState).isDragging = true ∧
    (step (.mousemove 110 115) (step (.mousedown 100 100) initState)).prismRotationY
      = initState.prismRotationY + 5 / 100 ∧
    (step (.mousemove 110 115) (step (.mousedown 100 100) initState)).prismRotationX
      = initState.prismRotationX + 75 / 1000 := by
  have h := drag_move_sensitivity (step (.mousedown 100 100) initState) 110 115 rfl
  refine ⟨rfl, ?_, ?_⟩
  · rw [h.1]
    norm_num [step, initState]
  · rw [h.2]
    norm_num [step, initState]

/-! ## Drag state machine: inertness after mouseup / mouseleave -/

/-- A mouse event that is not a mousedown. -/
def MouseNonDown (e : Event) : Prop :=
  (∃ x y, e = .mousemove x y) ∨ e = .mouseup ∨ e = .mouseleave

theorem step_nodrag_fix (t : AppState) (h : t.isDragging = false) (e : Event)
    (he : MouseNonDown e) : step e t = t := by
  rcases he with ⟨x, y, rfl⟩ | rfl | rfl
  · simp [step, h]
  · cases t
    simp_all [step]
  · cases t
    simp_all [step]

theorem runFrom_nodrag_fix (t : AppState) (h : t.isDragging = false) (es : List Event)
    (hes : ∀ e ∈ es, MouseNonDown e) : runFrom t es = t := by
  induction es with
  | nil => rfl
  | cons e es ih =>
      have h1 : step e t = t := step_nodrag_fix t h e (hes e (List.mem_cons_self e es))
      have h2 : runFrom t (e :: es) = runFrom (step e t) es := rfl
      rw [h2, h1]
      exact ih (fun f hf => hes f (List.mem_cons_of_mem e hf))

/-- C7: after a mouseup or mouseleave event, any sequence of subsequent
mouse events containing no mousedown (in particular any sequence of
mousemoves) leaves the prism group's rotation exactly where it was. -/
theorem mousemove_inert_after_mouseup (s : AppState) (e : Event)
    (he : e = .mouseup ∨ e = .mouseleave) (es : List Event)
    (hes : ∀ f ∈ es, MouseNonDown f) :
    (runFrom (step e s) es).prismRotationX = s.prismRotationX ∧
    (runFrom (step e s) es).prismRotationY = s.prismRotationY ∧
    (runFrom (step e s) es).prismRotationZ = s.prismRotationZ := by
  have hd : (step e s).isDragging = false := by
    rcases he with rfl | rfl <;> rfl
  rw [runFrom_nodrag_fix (step e s) hd es hes]
  rcases he with rfl | rfl <;> exact ⟨rfl, rfl, rfl⟩

/-- Witness for C7: release the button after a drag started at (100,100),
then two further mousemoves; the rotation stays at its value from before
the release. -/
theorem mousemove_inert_after_mouseup_witness :
    (runFrom (step .mouseup (step (.mousedown 100 100) initState))
        [.mousemove 50 60, .mousemove 70 80]).prismRotationX
      = (step (.mousedown 100 100) initState).prismRotationX ∧
    (runFrom (step .mouseup (step (.mousedown 100 100) initState))
        [.mousemove 50 60, .mousemove 70 80]).prismRotationY
      = (step (.mousedown 100 100) initState).prismRotationY :=
  have h := mousemove_inert_after_mouseup (step (.mousedown 100 100) initState) .mouseup
    (Or.inl rfl) [.mousemove 50 60, .mousemove 70 80]
    (by
      rintro f hf
      rcases hf with _ | ⟨_, hf⟩
      · exact Or.inl ⟨50, 60, rfl⟩
      · rcases hf with _ | ⟨_, hf⟩
        · exact Or.inl ⟨70, 80, rfl⟩
        · cases hf)
  ⟨h.1, h.2.1⟩

/-! ## Shared material instance -/

/-- All three solid meshes hold the arena index of `glassMaterial` (slot
0) and the arena holds exactly one material. -/
def MaterialsShared (s : AppState) : Prop :=
  s.singlePyramidMaterial = 0 ∧ s.upperPyramidMaterial = 0 ∧
  s.lowerPyramidMaterial = 0 ∧ ∃ m, s.materials = [m]

theorem step_materials_shared (e : Event) (s : AppState) (h : MaterialsShared s) :
    MaterialsShared (step e s) := by
  obtain ⟨h1, h2, h3, m, hm⟩ := h
  cases e <;>
    simp [step, MaterialsShared, updateDisplay, setActiveShape, updateBiPyramidGap,
      modifyMaterial, h1, h2, h3, hm] <;>
    split <;>
    simp [h1, h2, h3, hm]

theorem run_materials_shared (es : List Event) : MaterialsShared (run es) := by
  have aux : ∀ (l : List Event) (s : AppState), MaterialsShared s →
      MaterialsShared (runFrom s l) := by
    intro l
    induction l with
    | nil => exact fun s h => h
    | cons e l ih => exact fun s h => ih (step e s) (step_materials_shared e s h)
  exact aux es initState ⟨rfl, rfl, rfl, glassMaterial, rfl⟩

/-- C8: in every reachable state the three solid meshes (single pyramid
and both bi-pyramid halves) reference one and the same material arena
slot, and after a panel write of dispersion := v each of the three meshes
renders with dispersion v — regardless of which shape group is visible. -/
theorem shared_material_instance (es : List Event) (v : ℚ) :
    (run es).singlePyramidMaterial = (run es).upperPyramidMaterial ∧
    (run es).upperPyramidMaterial = (run es).lowerPyramidMaterial ∧
    meshMaterial (run es) (run es).singlePyramidMaterial
      = meshMaterial (run es) (run es).lowerPyramidMaterial ∧
    ((meshMaterial (step (.panelDispersion v) (run es))
        ((step (.panelDispersion v) (run es)).singlePyramidMaterial)).map
        Material.dispersion = some v ∧
      (meshMaterial (step (.panelDispersion v) (run es))
        ((step (.panelDispersion v) (run es)).upperPyramidMaterial)).map
        Material.dispersion = some v ∧
      (meshMaterial (step (.panelDispersion v) (run es))
        ((step (.panelDispersion v) (run es)).lowerPyramidMaterial)).map
        Material.dispersion = some v) := by
  obtain ⟨h1, h2, h3, m, hm⟩ := run_materials_shared es
  refine ⟨h1.trans h2.symm, h2.trans h3.symm, ?_, ?_, ?_, ?_⟩ <;>
    simp [meshMaterial, step, modifyMaterial, h1, h2, h3, hm]
